import Mathlib

/-!
Verification of the stopwatch/time-tracker application.

The development shallowly embeds the TypeScript source:
the tracker controller state and its operations from `src/app/page.tsx`
(handleStart, handleStop, handleReset, switchMode, the 1-second tick,
the mount/resumption effect, setTimerMinutes), the day-bucket aggregation
(`getDayData`), the today-timeline hour-slot computation
(`renderTimelineBar`), and the two variants of the `/sessions` HTTP route.
Timestamps are epoch milliseconds modelled as `Int`; JavaScript
`Math.floor(x / 1000)` becomes `Int.fdiv x 1000`; fractional minute
arithmetic is modelled exactly with `Rat`.
-/

/-- Tracking mode, from `type Mode = 'stopwatch' | 'timer'`. -/
inductive Mode where
  | stopwatch : Mode
  | timer : Mode
deriving DecidableEq, Repr

/-- A work session record, from `interface Session` in page.tsx. -/
structure Session where
  startTime : Int
  endTime : Option Int
  duration : Int
  mode : Mode
  date : String
deriving DecidableEq, Repr

/-- A day bucket, from `interface DayData` in page.tsx; `totalMinutes`
is a JS float, modelled exactly as a rational. -/
structure DayData where
  date : String
  totalMinutes : Rat
  sessions : List Session
deriving DecidableEq, Repr

/-- The React component state of the tracker controller. -/
structure TrackerState where
  mode : Mode
  isRunning : Bool
  elapsedTime : Int
  timerDuration : Int
  timerRemaining : Int
  startTime : Option Int
  sessions : List Session
deriving DecidableEq, Repr

/-- The localStorage entries the controller reads and writes, with the
string values already parsed to their numeric forms (`none` models a
missing key, which is exactly when the JS truthiness guards fail,
since every stored value is the decimal rendering of a number). -/
structure Storage where
  trackerMode : Option Mode
  startTime : Option Int
  timerStartTime : Option Int
  timerDuration : Option Int
  allSessions : Option (List Session)
deriving DecidableEq, Repr

/-- Combined controller-plus-storage state. -/
structure App where
  tracker : TrackerState
  storage : Storage
deriving DecidableEq, Repr

/-! ## Date rendering: `new Date(ms).toISOString().split('T')[0]`

`toISOString` renders the UTC calendar date.  Days since the epoch are
converted to a civil date with the standard Gregorian algorithm. -/

/-- Civil date (year, month, day) of a day count from 1970-01-01. -/
def civilFromDays (z0 : Int) : Int × Nat × Nat :=
  let z := z0 + 719468
  let era := Int.fdiv z 146097
  let doe : Nat := (z - era * 146097).toNat
  let yoe : Nat := (doe - doe / 1460 + doe / 36524 - doe / 146096) / 365
  let doy : Nat := doe - (365 * yoe + yoe / 4 - yoe / 100)
  let mp : Nat := (5 * doy + 2) / 153
  let d : Nat := doy - (153 * mp + 2) / 5 + 1
  let m : Nat := if mp < 10 then mp + 3 else mp - 9
  let y : Int := (yoe : Int) + era * 400 + (if m ≤ 2 then 1 else 0)
  (y, m, d)

/-- Zero-pad a natural number to two digits. -/
def pad2 (n : Nat) : String :=
  if n < 10 then "0" ++ toString n else toString n

/-- Zero-pad a year to four digits (negative years get a sign). -/
def pad4 (n : Int) : String :=
  if n < 0 then "-" ++ pad4aux (-n).toNat else pad4aux n.toNat
where
  pad4aux (k : Nat) : String :=
    if k < 10 then "000" ++ toString k
    else if k < 100 then "00" ++ toString k
    else if k < 1000 then "0" ++ toString k
    else toString k

/-- The date part of `new Date(ms).toISOString()`: the UTC calendar
date string `YYYY-MM-DD` of an epoch-milliseconds timestamp. -/
def toISODateString (ms : Int) : String :=
  let p := civilFromDays (Int.fdiv ms 86400000)
  pad4 p.1 ++ "-" ++ pad2 p.2.1 ++ "-" ++ pad2 p.2.2

/-- Modelled from the spec: the spec states the Session `date` field is
the "calendar date string derived from `startTime` in local time"; a
local calendar date is the UTC calendar date of the timestamp shifted
by the timezone offset (`offsetMinutes` east of UTC).  This definition
exists only to compare the spec wording against the code, which uses
`toISOString` (UTC). -/
def localDateString (offsetMinutes : Int) (ms : Int) : String :=
  toISODateString (ms + offsetMinutes * 60000)

/-! ## JS `parseInt(s, 10)` -/

/-- Longest decimal digit prefix of a character list; `none` when the
list does not start with a digit (JS `NaN`). -/
def parseDigits : List Char → Option Nat → Option Nat
  | [], acc => acc
  | c :: rest, acc =>
    if c.isDigit then parseDigits rest (some ((acc.getD 0) * 10 + (c.toNat - 48)))
    else acc

/-- JS `parseInt(s, 10)`: skip leading whitespace, read an optional
sign, then the longest digit prefix; `none` models `NaN`. -/
def parseIntJS (s : String) : Option Int :=
  let cs := s.data.dropWhile (fun c => c == ' ' || c == '\t' || c == '\n' || c == '\r')
  match cs with
  | '-' :: rest => (parseDigits rest none).map (fun n => -(n : Int))
  | '+' :: rest => (parseDigits rest none).map (fun n => (n : Int))
  | _ => (parseDigits cs none).map (fun n => (n : Int))

/-! ## Tracker controller operations (page.tsx)

JS number truthiness matters in two guards: `if (!startTime) return` in
`handleStop` and `mode === 'stopwatch' && startTime` in the tick, where
the number `0` is falsy.  Those guards are modelled faithfully with an
explicit `= 0` test on the stored value. -/

/-- The stored `startTime` state is JS-falsy: `null` or the number 0. -/
def falsyStart : Option Int → Bool
  | none => true
  | some n => n == 0

/-- The `handleStop` callback: if `startTime` is falsy, return
unchanged; otherwise close a Session (duration
`Math.floor((endTime - startTime)/1000)`, date from `toISOString`),
append it, persist the list, go idle, clear the `startTime` and
`timerStartTime` storage keys, and reset the display for the current
mode. -/
def handleStop (now : Int) (a : App) : App :=
  match a.tracker.startTime with
  | none => a
  | some st =>
    if st = 0 then a
    else
      let dur := Int.fdiv (now - st) 1000
      let sess : Session :=
        { startTime := st, endTime := some now, duration := dur,
          mode := a.tracker.mode, date := toISODateString st }
      let newSessions := a.tracker.sessions ++ [sess]
      { tracker :=
          { a.tracker with
            sessions := newSessions
            isRunning := false
            startTime := none
            elapsedTime :=
              if a.tracker.mode = Mode.stopwatch then 0 else a.tracker.elapsedTime
            timerRemaining :=
              if a.tracker.mode = Mode.stopwatch then a.tracker.timerRemaining
              else a.tracker.timerDuration }
        storage :=
          { a.storage with
            startTime := none
            timerStartTime := none
            allSessions := some newSessions } }

/-- The `handleStart` callback: capture `now` as start, set running,
persist the mode and start (and, in timer mode, the timer start and
duration), and reset the display. -/
def handleStart (now : Int) (a : App) : App :=
  { tracker :=
      { a.tracker with
        startTime := some now
        isRunning := true
        timerRemaining :=
          if a.tracker.mode = Mode.timer then a.tracker.timerDuration
          else a.tracker.timerRemaining
        elapsedTime :=
          if a.tracker.mode = Mode.timer then a.tracker.elapsedTime else 0 }
    storage :=
      { a.storage with
        trackerMode := some a.tracker.mode
        startTime := some now
        timerStartTime :=
          if a.tracker.mode = Mode.timer then some now
          else a.storage.timerStartTime
        timerDuration :=
          if a.tracker.mode = Mode.timer then some a.tracker.timerDuration
          else a.storage.timerDuration } }

/-- The `handleReset` callback: stop running, drop the start, zero the
display, and clear the `startTime` and `timerStartTime` storage keys.
The session list and the `allSessions` storage key are untouched. -/
def handleReset (a : App) : App :=
  { tracker :=
      { a.tracker with
        isRunning := false
        startTime := none
        elapsedTime := 0
        timerRemaining := a.tracker.timerDuration }
    storage := { a.storage with startTime := none, timerStartTime := none } }

/-- The `switchMode` callback: implicitly stop when running, then set
the new mode and reset the display.  It does not start a new run. -/
def switchMode (newMode : Mode) (now : Int) (a : App) : App :=
  let a1 := if a.tracker.isRunning then handleStop now a else a
  { a1 with
    tracker :=
      { a1.tracker with
        mode := newMode
        elapsedTime := 0
        timerRemaining := a1.tracker.timerDuration } }

/-- One firing of the 1-second interval: in stopwatch mode recompute
elapsed from `startTime`; in timer mode decrement the previous
displayed remaining by one and auto-invoke `handleStop` when the
decremented value reaches zero or below.  The interval only exists
while `isRunning`. -/
def tick (now : Int) (a : App) : App :=
  if a.tracker.isRunning then
    match a.tracker.mode with
    | Mode.stopwatch =>
      if falsyStart a.tracker.startTime then a
      else
        match a.tracker.startTime with
        | none => a
        | some st =>
          { a with tracker :=
            { a.tracker with elapsedTime := Int.fdiv (now - st) 1000 } }
    | Mode.timer =>
      let newRemaining := a.tracker.timerRemaining - 1
      if newRemaining ≤ 0 then handleStop now a
      else { a with tracker := { a.tracker with timerRemaining := newRemaining } }
  else a

/-- The initial React state before the mount effect runs. -/
def initialTracker : TrackerState :=
  { mode := Mode.stopwatch, isRunning := false, elapsedTime := 0,
    timerDuration := 25 * 60, timerRemaining := 25 * 60,
    startTime := none, sessions := [] }

/-- The mount/resumption effect: restore the saved mode and timer
duration; when a saved `startTime` exists, resume as running, with
elapsed recomputed from the gap in stopwatch mode, and remaining
recomputed as `max 0 (duration - elapsed)` in timer mode; then load
the persisted session list.  It never invokes `handleStop`. -/
def mountEffect (now : Int) (stg : Storage) : App :=
  let t1 := match stg.trackerMode with
    | some m => { initialTracker with mode := m }
    | none => initialTracker
  let t2 := match stg.timerDuration with
    | some d => { t1 with timerDuration := d, timerRemaining := d }
    | none => t1
  let t3 := match stg.startTime with
    | none => t2
    | some s =>
      let b := { t2 with startTime := some s, isRunning := true }
      if stg.trackerMode = some Mode.stopwatch then
        { b with elapsedTime := Int.fdiv (now - s) 1000 }
      else
        match stg.timerStartTime, stg.timerDuration with
        | some ts, some d =>
          { b with timerRemaining := max 0 (d - Int.fdiv (now - ts) 1000) }
        | _, _ => b
  let t4 := match stg.allSessions with
    | some l => { t3 with sessions := l }
    | none => t3
  { tracker := t4, storage := stg }

/-- The `setTimerMinutes` callback: `parseInt(tempMinutes, 10) || 25`
(so `NaN` and `0` both coerce to the 25-minute default), times 60. -/
def setTimerMinutes (s : String) (a : App) : App :=
  let minutes : Int := match parseIntJS s with
    | none => 25
    | some n => if n = 0 then 25 else n
  let seconds := minutes * 60
  { a with tracker :=
    { a.tracker with timerDuration := seconds, timerRemaining := seconds } }

/-! ## HTTP route models (`/api/sessions`)

Two variants of the route handler are in the repository: the one at
`src/app/api/sessions/route.ts`, whose POST only calls `insertMany`,
and the unnamed variant, whose POST calls `deleteMany({})` and then
inserts the body when non-empty. -/

/-- GET of the `route.ts` variant: the stored collection verbatim. -/
def listAllRoute (store : List Session) : List Session := store

/-- POST of the `route.ts` variant: `insertMany(sessions)` with no
prior delete, i.e. the body is appended to the stored collection. -/
def postRoute (store body : List Session) : List Session := store ++ body

/-- POST of the unnamed variant: `deleteMany({})`, then `insertMany`
when the body is non-empty. -/
def postReplaceAll (_store body : List Session) : List Session :=
  let cleared : List Session := []
  if 0 < body.length then cleared ++ body else cleared

/-! ## Day-bucket aggregation (`getDayData` in page.tsx)

`getDayData` first applies the analytics range filter and then groups
the remaining sessions with a `Map<string, DayData>` keyed by the
`date` field, accumulating `duration / 60` into `totalMinutes`, and
finally sorts the buckets by `date.localeCompare` ascending (for the
ASCII date keys this is lexicographic string order).  `groupByDay`
below is that grouping-and-sorting body; a JS `Map` preserves
insertion order and appends unseen keys at the end, which the
first-match-update / append-at-end recursion reproduces. -/

/-- Accumulate one session into its existing day bucket. -/
def updateDay (s : Session) (d : DayData) : DayData :=
  { d with
    totalMinutes := d.totalMinutes + (s.duration : Rat) / 60
    sessions := d.sessions ++ [s] }

/-- Insert one session into the bucket list: update the bucket whose
date matches, or append a fresh bucket at the end. -/
def insertDay (s : Session) : List DayData → List DayData
  | [] => [{ date := s.date, totalMinutes := (s.duration : Rat) / 60, sessions := [s] }]
  | d :: rest =>
    if d.date = s.date then updateDay s d :: rest
    else d :: insertDay s rest

/-- The bucket list built by the `forEach` over the session list. -/
def buildDayMap (l : List Session) : List DayData :=
  l.foldl (fun acc s => insertDay s acc) []

/-- Bucket-ordering relation: ascending date string. -/
def dayLE (a b : DayData) : Prop := a.date ≤ b.date

instance : DecidableRel dayLE := fun a b =>
  inferInstanceAs (Decidable (a.date ≤ b.date))

instance : IsTotal DayData dayLE := ⟨fun a b => le_total a.date b.date⟩

instance : IsTrans DayData dayLE := ⟨fun _ _ _ hab hbc => le_trans hab hbc⟩

/-- The grouping core of `getDayData`: bucket by `date`, then sort the
buckets by ascending date string. -/
def groupByDay (l : List Session) : List DayData :=
  List.insertionSort dayLE (buildDayMap l)

/-- Total minutes recorded for a date in a bucket list: the
`totalMinutes` of the first bucket with that date, or 0. -/
def lookupTotal (dd : List DayData) (d : String) : Rat :=
  match dd.find? (fun x => x.date = d) with
  | some x => x.totalMinutes
  | none => 0

/-- The per-date reference total: the sum of `duration / 60` over the
sessions carrying that date. -/
def daySum (l : List Session) (d : String) : Rat :=
  ((l.filter (fun s => s.date = d)).map (fun s => (s.duration : Rat) / 60)).sum

/-! ## Today-timeline hour slots (`renderTimelineBar` in page.tsx)

For hour `i` the code takes `hourStart = midnight + i hours` and
`hourEnd = hourStart + 3599999 ms` (`setHours(i, 59, 59, 999)`), then
sums `(min(endTime, hourEnd) - max(startTime, hourStart)) / 1000 / 60`
over the sessions with an `endTime`, counting only positive overlaps.
`workedMinutes` is `Math.round` of the sum — it is not clamped; only
the bar-width percentage is capped at 100. -/

/-- One `forEach` step of the slot computation. -/
def slotStep (hs he : Int) (acc : Rat) (s : Session) : Rat :=
  match s.endTime with
  | none => acc
  | some e =>
    let ss := max s.startTime hs
    let se := min e he
    if ss < se then acc + ((se - ss : Int) : Rat) / 1000 / 60 else acc

/-- Raw worked minutes of hour slot `i` of the day starting at
`midnightMs`, as accumulated by the code. -/
def hourSlotMinutes (sessions : List Session) (midnightMs : Int) (i : Nat) : Rat :=
  let hs := midnightMs + (i : Int) * 3600000
  let he := hs + 3599999
  sessions.foldl (slotStep hs he) 0

/-- JS `Math.round`: floor of the value plus one half. -/
def jsRound (x : Rat) : Int := Int.floor (x + 1 / 2)

/-- The `workedMinutes` figure displayed for a slot. -/
def slotWorkedMinutesDisplayed (sessions : List Session) (midnightMs : Int) (i : Nat) : Int :=
  jsRound (hourSlotMinutes sessions midnightMs i)

/-- The bar-width percentage of a slot, clamped at 100. -/
def slotWorkedPercentage (sessions : List Session) (midnightMs : Int) (i : Nat) : Rat :=
  min (hourSlotMinutes sessions midnightMs i / 60 * 100) 100

/-- Modelled from the spec: the per-slot overlap sum the spec
describes, `overlap = max(0, min(sessionEnd, slotEnd) -
max(sessionStart, slotStart))` in minutes, summed over the sessions
with an `endTime`.  Used to compare the spec formula with the code. -/
def specSlotOverlapSum (l : List Session) (slotStart slotEnd : Int) : Rat :=
  (l.map (fun s =>
    match s.endTime with
    | none => 0
    | some e => ((max 0 (min e slotEnd - max s.startTime slotStart) : Int) : Rat) / 60000)).sum

/-! ## Concrete fixtures for witnesses and counterexamples -/

/-- A storage with every key absent. -/
def emptyStorage : Storage :=
  { trackerMode := none, startTime := none, timerStartTime := none,
    timerDuration := none, allSessions := none }

/-- The app state after mounting with empty storage. -/
def app0 : App := mountEffect 0 emptyStorage

/-- A running 100-second timer started at t = 1000 ms whose display
still shows 100 (one or more ticks were missed). -/
def timerRunApp : App :=
  { tracker :=
      { mode := Mode.timer, isRunning := true, elapsedTime := 0,
        timerDuration := 100, timerRemaining := 100,
        startTime := some 1000, sessions := [] }
    storage :=
      { trackerMode := some Mode.timer, startTime := some 1000,
        timerStartTime := some 1000, timerDuration := some 100,
        allSessions := some [] } }

/-- The same running timer with one displayed second left. -/
def timerExpiringApp : App :=
  { timerRunApp with
    tracker := { timerRunApp.tracker with timerRemaining := 1 } }

/-- Persisted resumption state of a 60-second timer started at
t = 1000 ms, reloaded long after expiry. -/
def resumeStorage : Storage :=
  { trackerMode := some Mode.timer, startTime := some 1000,
    timerStartTime := some 1000, timerDuration := some 60,
    allSessions := some [] }

/-- A running stopwatch started at 2024-01-01T00:30:00Z (epoch
1704069000000 ms). -/
def dateApp : App :=
  { tracker :=
      { mode := Mode.stopwatch, isRunning := true, elapsedTime := 0,
        timerDuration := 1500, timerRemaining := 1500,
        startTime := some 1704069000000, sessions := [] }
    storage := emptyStorage }

/-- A running stopwatch started at t = 2000 ms. -/
def swRunApp : App :=
  { tracker :=
      { mode := Mode.stopwatch, isRunning := true, elapsedTime := 3,
        timerDuration := 1500, timerRemaining := 1500,
        startTime := some 2000, sessions := [] }
    storage :=
      { trackerMode := some Mode.stopwatch, startTime := some 2000,
        timerStartTime := none, timerDuration := none,
        allSessions := some [] } }

/-- A closed stopwatch session, used as pre-existing store content. -/
def sessA : Session :=
  { startTime := 0, endTime := some 1000, duration := 1,
    mode := Mode.stopwatch, date := "1970-01-01" }

/-- A closed timer session, used as a POST body. -/
def sessB : Session :=
  { startTime := 2000, endTime := some 3000, duration := 1,
    mode := Mode.timer, date := "1970-01-01" }

/-- Session 09:00–09:30 of the epoch day (milliseconds). -/
def slotSessA : Session :=
  { startTime := 32400000, endTime := some 34200000, duration := 1800,
    mode := Mode.stopwatch, date := "1970-01-01" }

/-- Session 09:15–10:00 of the epoch day (milliseconds). -/
def slotSessB : Session :=
  { startTime := 33300000, endTime := some 36000000, duration := 2700,
    mode := Mode.stopwatch, date := "1970-01-01" }

/-- First 30-minute session of 2024-01-01. -/
def exS1 : Session :=
  { startTime := 0, endTime := none, duration := 1800,
    mode := Mode.stopwatch, date := "2024-01-01" }

/-- Second 30-minute session of 2024-01-01. -/
def exS2 : Session :=
  { startTime := 1, endTime := none, duration := 1800,
    mode := Mode.stopwatch, date := "2024-01-01" }

/-- A 60-minute session of 2024-01-02. -/
def exS3 : Session :=
  { startTime := 2, endTime := none, duration := 3600,
    mode := Mode.stopwatch, date := "2024-01-02" }

/-- The three-session scenario list from the aggregation claims. -/
def exampleSessions : List Session := [exS1, exS2, exS3]

/-! ## Theorems -/

/-- C8: `handleReset`, invoked in any state, transitions the
controller to idle, zeroes the display, leaves the stored session
list (and the `allSessions` archive entry) unchanged, and clears the
`startTime` and `timerStartTime` resumption entries. -/
theorem handleReset_frame : ∀ a : App,
    (handleReset a).tracker.isRunning = false ∧
    (handleReset a).tracker.startTime = none ∧
    (handleReset a).tracker.elapsedTime = 0 ∧
    (handleReset a).tracker.timerRemaining = a.tracker.timerDuration ∧
    (handleReset a).tracker.sessions = a.tracker.sessions ∧
    (handleReset a).storage.allSessions = a.storage.allSessions ∧
    (handleReset a).storage.startTime = none ∧
    (handleReset a).storage.timerStartTime = none := by
  intro a
  exact ⟨rfl, rfl, rfl, rfl, rfl, rfl, rfl, rfl⟩

/-- C7: `handleStop` with no active `startTime` changes nothing at
all, and stopping twice is the same as stopping once, so a racing
double stop records at most one Session. -/
theorem handleStop_noop_and_idempotent : ∀ (a : App) (now now2 : Int),
    (a.tracker.startTime = none → handleStop now a = a) ∧
    handleStop now2 (handleStop now a) = handleStop now a := by
  intro a now now2
  constructor
  · intro h
    simp [handleStop, h]
  · cases hst : a.tracker.startTime with
    | none => simp [handleStop, hst]
    | some st =>
      by_cases h0 : st = 0
      · simp [handleStop, hst, h0]
      · simp [handleStop, hst, h0]

/-- C7 witness: stopping the freshly mounted idle app is a no-op. -/
theorem handleStop_noop_and_idempotent_witness :
    handleStop 5000 app0 = app0 :=
  (handleStop_noop_and_idempotent app0 5000 0).1 rfl

/-- C10: `setTimerMinutes` falls back to the 25-minute default
(1500 s) exactly when `parseInt` yields `NaN` or `0`, and otherwise
sets `n * 60` seconds, negative entries included. -/
theorem setTimerMinutes_default_coercion : ∀ (a : App) (s : String),
    ((parseIntJS s = none ∨ parseIntJS s = some 0) →
      (setTimerMinutes s a).tracker.timerDuration = 1500) ∧
    (∀ n : Int, parseIntJS s = some n → n ≠ 0 →
      (setTimerMinutes s a).tracker.timerDuration = n * 60) := by
  intro a s
  constructor
  · rintro (h | h) <;> simp [setTimerMinutes, h]
  · intro n h hn
    simp [setTimerMinutes, h, hn]

/-- C10 witness: the entry "0" is coerced to the default 1500 s while
"-5" yields the negative duration -300 s. -/
theorem setTimerMinutes_default_coercion_witness :
    (setTimerMinutes "0" app0).tracker.timerDuration = 1500 ∧
    (setTimerMinutes "-5" app0).tracker.timerDuration = (-5) * 60 :=
  ⟨(setTimerMinutes_default_coercion app0 "0").1 (Or.inr (by decide)),
   (setTimerMinutes_default_coercion app0 "-5").2 (-5) (by decide) (by decide)⟩

/-- C4 counterexample: the POST handler of
`src/app/api/sessions/route.ts` only calls `insertMany`, so posting
`[sessB]` over a store holding `[sessA]` leaves `[sessA, sessB]`, not
the posted list `[sessB]` the claim requires. -/
theorem postRoute_appends_not_replaces :
    postRoute [sessA] [sessB] = [sessA, sessB] ∧
    postRoute [sessA] [sessB] ≠ [sessB] := by
  decide

/-- C4 (amended): the unnamed route variant deletes everything and
stores the body verbatim (empty body clears the store and a GET then
returns the empty list), while the `route.ts` variant appends the
body to the stored collection. -/
theorem postReplaceAll_replaces_verbatim : ∀ store body : List Session,
    postReplaceAll store body = body ∧
    postReplaceAll store [] = [] ∧
    listAllRoute (postReplaceAll store []) = [] ∧
    postRoute store body = store ++ body := by
  intro store body
  refine ⟨?_, rfl, rfl, rfl⟩
  cases body with
  | nil => rfl
  | cons h t => simp [postReplaceAll]

/-- C1 counterexample: a running 100-second timer started at
t = 1000 ms whose display shows 100, ticked at t = 51000 ms (50
elapsed seconds, earlier ticks having been missed).  The claimed
derivation `max 0 (duration - floor((now-startTime)/1000))` gives 50,
but the code naively subtracts 1 from the previous displayed value
and shows 99. -/
theorem tick_not_derived_from_startTime :
    (tick 51000 timerRunApp).tracker.timerRemaining = 99 ∧
    ¬ (tick 51000 timerRunApp).tracker.timerRemaining =
        max 0 (timerRunApp.tracker.timerDuration -
          Int.fdiv (51000 - 1000) 1000) := by
  decide

/-- C2 counterexample: mounting with a persisted 60-second timer
started at t = 1000 ms, at now = 100000 ms (99 elapsed seconds, well
past expiry), leaves the controller running with remaining clamped to
0 and appends no Session — it does not immediately perform stop. -/
theorem mount_expired_timer_stays_running :
    (mountEffect 100000 resumeStorage).tracker.isRunning = true ∧
    (mountEffect 100000 resumeStorage).tracker.sessions = [] ∧
    (mountEffect 100000 resumeStorage).tracker.timerRemaining = 0 := by
  decide

/-- C3 counterexample: for the sessions 09:00–09:30 and 09:15–10:00
of the day starting at `midnightMs = 0`, the 09:00–10:00 slot reports
75 worked minutes, not the claimed clamped 60. -/
theorem timeline_slot_not_capped_at_60 :
    slotWorkedMinutesDisplayed [slotSessA, slotSessB] 0 9 = 75 ∧
    ¬ slotWorkedMinutesDisplayed [slotSessA, slotSessB] 0 9 = 60 := by
  have h1 : hourSlotMinutes [slotSessA, slotSessB] 0 9 = 4499999 / 60000 := by
    norm_num [hourSlotMinutes, slotStep, slotSessA, slotSessB, List.foldl,
      min_def, max_def]
  have h2 : slotWorkedMinutesDisplayed [slotSessA, slotSessB] 0 9 = 75 := by
    simp only [slotWorkedMinutesDisplayed, jsRound, h1]
    rw [Int.floor_eq_iff]
    constructor <;> norm_num
  exact ⟨h2, by rw [h2]; decide⟩

/-- C5 counterexample: a session started at 2024-01-01T00:30:00Z
(epoch 1704069000000 ms) gets date "2024-01-01", the UTC date of its
start — in a timezone one hour west of UTC the local calendar date of
that instant is "2023-12-31", so the field is not computed in local
time. -/
theorem session_date_is_utc_not_local :
    (handleStop 1704070000000 dateApp).tracker.sessions =
      [{ startTime := 1704069000000, endTime := some 1704070000000,
         duration := 1000, mode := Mode.stopwatch, date := "2024-01-01" }] ∧
    localDateString (-60) 1704069000000 = "2023-12-31" ∧
    ¬ toISODateString 1704069000000 = localDateString (-60) 1704069000000 := by
  decide

/-- C6 counterexample: switching mode while the stopwatch runs leaves
the controller idle, whereas stop immediately followed by start leaves
it running — the two are not equivalent. -/
theorem switchMode_not_equivalent_to_stop_start :
    (switchMode Mode.timer 5000 swRunApp).tracker.isRunning = false ∧
    (handleStart 5000 (handleStop 5000 swRunApp)).tracker.isRunning = true ∧
    ¬ switchMode Mode.timer 5000 swRunApp =
        handleStart 5000 (handleStop 5000 swRunApp) := by
  decide

/-- C1 (amended): while the timer is running, each tick updates the
remaining time by naive subtraction of 1 from the previous displayed
value (it is not derived from `startTime`; only the mount resumption
recomputes it from the persisted start), and when the decremented
value reaches 0 or below the controller auto-invokes `handleStop`. -/
theorem tick_timer_decrements_and_autostops : ∀ (a : App) (now : Int),
    (a.tracker.isRunning = true → a.tracker.mode = Mode.timer →
      1 < a.tracker.timerRemaining →
      tick now a =
        { a with tracker :=
          { a.tracker with timerRemaining := a.tracker.timerRemaining - 1 } }) ∧
    (a.tracker.isRunning = true → a.tracker.mode = Mode.timer →
      a.tracker.timerRemaining ≤ 1 →
      tick now a = handleStop now a) := by
  intro a now
  constructor
  · intro hr hm hgt
    rw [tick, hr, if_pos rfl, hm]
    rw [if_neg (by omega : ¬ a.tracker.timerRemaining - 1 ≤ 0)]
  · intro hr hm hle
    rw [tick, hr, if_pos rfl, hm]
    rw [if_pos (by omega : a.tracker.timerRemaining - 1 ≤ 0)]

/-- C1 witness: the missed-tick state decrements 100 to 99, and the
one-second state auto-stops. -/
theorem tick_timer_decrements_and_autostops_witness :
    tick 51000 timerRunApp =
      { timerRunApp with tracker :=
        { timerRunApp.tracker with
          timerRemaining := timerRunApp.tracker.timerRemaining - 1 } } ∧
    tick 200000 timerExpiringApp = handleStop 200000 timerExpiringApp :=
  ⟨(tick_timer_decrements_and_autostops timerRunApp 51000).1 rfl rfl (by decide),
   (tick_timer_decrements_and_autostops timerExpiringApp 200000).2 rfl rfl (by decide)⟩

/-- C6 (amended): `switchMode` while running performs `stop` —
appending exactly one Session, carrying the previous mode — then
changes mode and resets the display, ending idle; no `start` follows,
so it is not equivalent to stop-then-start. -/
theorem switchMode_running_stops_once_prev_mode :
    ∀ (a : App) (nm : Mode) (now st : Int),
    a.tracker.isRunning = true → a.tracker.startTime = some st → st ≠ 0 →
    (switchMode nm now a).tracker.sessions =
      a.tracker.sessions ++
        [{ startTime := st, endTime := some now,
           duration := Int.fdiv (now - st) 1000, mode := a.tracker.mode,
           date := toISODateString st }] ∧
    (switchMode nm now a).tracker.isRunning = false ∧
    (switchMode nm now a).tracker.mode = nm ∧
    (switchMode nm now a).tracker.startTime = none := by
  intro a nm now st hr hst h0
  have hstop : handleStop now a =
      { tracker :=
          { a.tracker with
            sessions := a.tracker.sessions ++
              [{ startTime := st, endTime := some now,
                 duration := Int.fdiv (now - st) 1000, mode := a.tracker.mode,
                 date := toISODateString st }]
            isRunning := false
            startTime := none
            elapsedTime :=
              if a.tracker.mode = Mode.stopwatch then 0 else a.tracker.elapsedTime
            timerRemaining :=
              if a.tracker.mode = Mode.stopwatch then a.tracker.timerRemaining
              else a.tracker.timerDuration }
        storage :=
          { a.storage with
            startTime := none
            timerStartTime := none
            allSessions := some (a.tracker.sessions ++
              [{ startTime := st, endTime := some now,
                 duration := Int.fdiv (now - st) 1000, mode := a.tracker.mode,
                 date := toISODateString st }]) } } := by
    simp only [handleStop, hst]
    rw [if_neg h0]
  rw [switchMode, hr, if_pos rfl, hstop]
  exact ⟨rfl, rfl, rfl, rfl⟩

/-- C6 witness: switching the running stopwatch to timer mode at
t = 5000 ms records the single 3-second stopwatch session and ends
idle in timer mode. -/
theorem switchMode_running_stops_once_prev_mode_witness :
    (switchMode Mode.timer 5000 swRunApp).tracker.sessions =
      swRunApp.tracker.sessions ++
        [{ startTime := 2000, endTime := some 5000,
           duration := Int.fdiv (5000 - 2000) 1000,
           mode := swRunApp.tracker.mode,
           date := toISODateString 2000 }] ∧
    (switchMode Mode.timer 5000 swRunApp).tracker.isRunning = false ∧
    (switchMode Mode.timer 5000 swRunApp).tracker.mode = Mode.timer ∧
    (switchMode Mode.timer 5000 swRunApp).tracker.startTime = none :=
  switchMode_running_stops_once_prev_mode swRunApp Mode.timer 5000 2000
    rfl rfl (by decide)

/-- C2 (amended): resuming a persisted timer whose elapsed wall time
already meets or exceeds `timerDuration` leaves the controller
running with the remaining display clamped to 0 and no Session
appended; `stop` is only auto-invoked by the first subsequent tick,
and the Session it then records has duration
`floor((tickTime - startTime)/1000)` — the full wall-clock gap, not
`timerDuration`. -/
theorem mount_expired_timer_resumes_then_first_tick_stops :
    ∀ (stg : Storage) (now now2 s d : Int),
    stg.trackerMode = some Mode.timer →
    stg.startTime = some s →
    stg.timerStartTime = some s →
    stg.timerDuration = some d →
    stg.allSessions = some [] →
    s ≠ 0 →
    d ≤ Int.fdiv (now - s) 1000 →
    (mountEffect now stg).tracker.isRunning = true ∧
    (mountEffect now stg).tracker.timerRemaining = 0 ∧
    (mountEffect now stg).tracker.sessions = [] ∧
    (tick now2 (mountEffect now stg)).tracker.isRunning = false ∧
    (tick now2 (mountEffect now stg)).tracker.sessions =
      [{ startTime := s, endTime := some now2,
         duration := Int.fdiv (now2 - s) 1000, mode := Mode.timer,
         date := toISODateString s }] := by
  intro stg now now2 s d h1 h2 h3 h4 h5 h6 h7
  have hrem : max 0 (d - Int.fdiv (now - s) 1000) = 0 := by
    have hx : d - Int.fdiv (now - s) 1000 ≤ 0 := by
      set k := Int.fdiv (now - s) 1000 with hk
      omega
    exact max_eq_left hx
  have hm : mountEffect now stg =
      { tracker :=
          { mode := Mode.timer, isRunning := true, elapsedTime := 0,
            timerDuration := d, timerRemaining := 0,
            startTime := some s, sessions := [] }
        storage := stg } := by
    simp [mountEffect, initialTracker, h1, h2, h3, h4, h5, hrem]
  refine ⟨by rw [hm], by rw [hm], by rw [hm], ?_, ?_⟩
  · rw [hm]
    simp [tick, handleStop, h6]
  · rw [hm]
    simp [tick, handleStop, h6]

/-- C2 witness: the 60-second timer persisted at t = 1000 ms, mounted
at t = 100000 ms and ticked at t = 101000 ms, resumes running with
remaining 0 and then records a single 100-second session. -/
theorem mount_expired_timer_resumes_then_first_tick_stops_witness :
    (mountEffect 100000 resumeStorage).tracker.isRunning = true ∧
    (mountEffect 100000 resumeStorage).tracker.timerRemaining = 0 ∧
    (mountEffect 100000 resumeStorage).tracker.sessions = [] ∧
    (tick 101000 (mountEffect 100000 resumeStorage)).tracker.isRunning = false ∧
    (tick 101000 (mountEffect 100000 resumeStorage)).tracker.sessions =
      [{ startTime := 1000, endTime := some 101000,
         duration := Int.fdiv (101000 - 1000) 1000, mode := Mode.timer,
         date := toISODateString 1000 }] :=
  mount_expired_timer_resumes_then_first_tick_stops resumeStorage
    100000 101000 1000 60 rfl rfl rfl rfl rfl (by decide) (by decide)

/-- One slot-accumulation step equals adding the clamped overlap of
the spec formula (in minutes). -/
theorem slotStep_eq (lo hi : Int) (acc : Rat) (s : Session) :
    slotStep lo hi acc s = acc +
      (match s.endTime with
       | none => 0
       | some e => ((max 0 (min e hi - max s.startTime lo) : Int) : Rat) / 60000) := by
  cases hend : s.endTime with
  | none => simp [slotStep, hend]
  | some e =>
    simp only [slotStep, hend]
    by_cases hlt : max s.startTime lo < min e hi
    · rw [if_pos hlt]
      have h0 : (0 : Int) ≤ min e hi - max s.startTime lo := by omega
      rw [max_eq_right h0]
      rw [div_div]
      norm_num
    · rw [if_neg hlt]
      have h0 : min e hi - max s.startTime lo ≤ 0 := by omega
      rw [max_eq_left h0]
      simp

/-- The slot fold computes the spec overlap sum shifted by its
accumulator. -/
theorem slot_foldl_eq (lo hi : Int) : ∀ (l : List Session) (acc : Rat),
    l.foldl (slotStep lo hi) acc = acc + specSlotOverlapSum l lo hi := by
  intro l
  induction l with
  | nil => intro acc; simp [specSlotOverlapSum]
  | cons s t ih =>
    intro acc
    rw [List.foldl_cons, ih, slotStep_eq]
    simp only [specSlotOverlapSum, List.map_cons, List.sum_cons]
    ring

/-- C3 (amended): for every hour slot, the raw worked minutes equal
the spec overlap sum `max(0, min(sessionEnd, slotEnd) -
max(sessionStart, slotStart))` taken with slot end
`slotStart + 3599999 ms` and with no clamp to 60 — only the bar-width
percentage is capped at 100; on the two sessions 09:00–09:30 and
09:15–10:00 the 09:00 slot therefore displays 75 worked minutes with a
100% bar. -/
theorem hourSlot_spec_formula_and_example :
    (∀ (l : List Session) (mid : Int) (i : Nat),
      hourSlotMinutes l mid i =
        specSlotOverlapSum l (mid + (i : Int) * 3600000)
          (mid + (i : Int) * 3600000 + 3599999)) ∧
    slotWorkedMinutesDisplayed [slotSessA, slotSessB] 0 9 = 75 ∧
    slotWorkedPercentage [slotSessA, slotSessB] 0 9 = 100 := by
  have hval : hourSlotMinutes [slotSessA, slotSessB] 0 9 = 4499999 / 60000 := by
    norm_num [hourSlotMinutes, slotStep, slotSessA, slotSessB, List.foldl,
      min_def, max_def]
  refine ⟨?_, ?_, ?_⟩
  · intro l mid i
    simp only [hourSlotMinutes]
    rw [slot_foldl_eq, zero_add]
  · simp only [slotWorkedMinutesDisplayed, jsRound, hval]
    rw [Int.floor_eq_iff]
    constructor <;> norm_num
  · simp only [slotWorkedPercentage, hval]
    rw [min_eq_right]
    norm_num

/-- Looking up a date whose bucket heads the list returns that
bucket's total. -/
theorem lookupTotal_cons_pos (x : DayData) (l : List DayData) (d : String)
    (h : x.date = d) : lookupTotal (x :: l) d = x.totalMinutes := by
  simp [lookupTotal, h]

/-- Looking up a date the head bucket does not carry skips the head. -/
theorem lookupTotal_cons_neg (x : DayData) (l : List DayData) (d : String)
    (h : ¬ x.date = d) : lookupTotal (x :: l) d = lookupTotal l d := by
  simp [lookupTotal, h]

/-- Inserting a session adds its minutes to exactly its date's
bucket total. -/
theorem lookupTotal_insertDay (s : Session) (d : String) :
    ∀ acc : List DayData,
    lookupTotal (insertDay s acc) d =
      lookupTotal acc d + (if s.date = d then (s.duration : Rat) / 60 else 0) := by
  intro acc
  induction acc with
  | nil =>
    by_cases h : s.date = d
    · simp only [insertDay]
      rw [lookupTotal_cons_pos _ _ _ h]
      simp [lookupTotal, h]
    · simp only [insertDay]
      rw [lookupTotal_cons_neg _ _ _ h]
      simp [lookupTotal, h]
  | cons d0 rest ih =>
    by_cases h1 : d0.date = s.date
    · by_cases h2 : d0.date = d
      · have hs : s.date = d := h1 ▸ h2
        simp only [insertDay, if_pos h1]
        rw [lookupTotal_cons_pos _ _ _ h2]
        rw [lookupTotal_cons_pos (updateDay s d0) rest d (by simpa [updateDay] using h2)]
        simp [updateDay, hs]
      · have hs : ¬ s.date = d := fun hh => h2 (h1.trans hh)
        simp only [insertDay, if_pos h1]
        rw [lookupTotal_cons_neg _ _ _ h2]
        rw [lookupTotal_cons_neg (updateDay s d0) rest d (by simpa [updateDay] using h2)]
        simp [hs]
    · by_cases h2 : d0.date = d
      · have hs : ¬ s.date = d := fun hh => h1 (h2.trans hh.symm)
        simp only [insertDay, if_neg h1]
        rw [lookupTotal_cons_pos _ _ _ h2, lookupTotal_cons_pos _ _ _ h2]
        simp [hs]
      · simp only [insertDay, if_neg h1]
        rw [lookupTotal_cons_neg _ _ _ h2, lookupTotal_cons_neg _ _ _ h2]
        exact ih

/-- Folding sessions into a bucket list adds each date's minute sum
to its bucket total. -/
theorem lookupTotal_foldl (d : String) : ∀ (l : List Session) (acc : List DayData),
    lookupTotal (l.foldl (fun a s => insertDay s a) acc) d =
      lookupTotal acc d + daySum l d := by
  intro l
  induction l with
  | nil =>
    intro acc
    simp [daySum]
  | cons s t ih =>
    intro acc
    rw [List.foldl_cons, ih, lookupTotal_insertDay]
    have hsum : daySum (s :: t) d =
        (if s.date = d then (s.duration : Rat) / 60 else 0) + daySum t d := by
      by_cases h : s.date = d <;> simp [daySum, List.filter_cons, h]
    rw [hsum]
    ring

/-- The built bucket map carries exactly the per-date minute sums. -/
theorem lookupTotal_buildDayMap (l : List Session) (d : String) :
    lookupTotal (buildDayMap l) d = daySum l d := by
  have h := lookupTotal_foldl d l []
  simpa [buildDayMap, lookupTotal] using h

/-- A date occurs among the keys after an insert iff it occurred
before or is the inserted session's date. -/
theorem mem_keys_insertDay (s : Session) (k : String) :
    ∀ acc : List DayData,
    (k ∈ (insertDay s acc).map (fun x => x.date) ↔
      k ∈ acc.map (fun x => x.date) ∨ k = s.date) := by
  intro acc
  induction acc with
  | nil => simp [insertDay]
  | cons d0 rest ih =>
    by_cases h1 : d0.date = s.date
    · simp only [insertDay, if_pos h1, List.map_cons, List.mem_cons]
      constructor
      · intro h
        cases h with
        | inl h => exact Or.inl (Or.inl (by simpa [updateDay] using h))
        | inr h => exact Or.inl (Or.inr h)
      · rintro (h | h)
        · cases h with
          | inl h => exact Or.inl (by simpa [updateDay] using h)
          | inr h => exact Or.inr h
        · exact Or.inl (by simp [updateDay, h, h1])
    · simp only [insertDay, if_neg h1, List.map_cons, List.mem_cons, ih]
      tauto

/-- Inserting a session preserves distinctness of the bucket keys. -/
theorem nodup_keys_insertDay (s : Session) :
    ∀ acc : List DayData,
    (acc.map (fun x => x.date)).Nodup →
    ((insertDay s acc).map (fun x => x.date)).Nodup := by
  intro acc
  induction acc with
  | nil =>
    intro _
    simp [insertDay]
  | cons d0 rest ih =>
    intro h
    rw [List.map_cons, List.nodup_cons] at h
    by_cases h1 : d0.date = s.date
    · simpa [insertDay, if_pos h1, List.nodup_cons, updateDay] using h
    · simp only [insertDay, if_neg h1, List.map_cons, List.nodup_cons]
      refine ⟨?_, ih h.2⟩
      rw [mem_keys_insertDay]
      rintro (hm | hm)
      · exact h.1 hm
      · exact h1 hm

/-- Folding sessions into a bucket list preserves key distinctness. -/
theorem nodup_keys_foldl : ∀ (l : List Session) (acc : List DayData),
    (acc.map (fun x => x.date)).Nodup →
    ((l.foldl (fun a s => insertDay s a) acc).map (fun x => x.date)).Nodup := by
  intro l
  induction l with
  | nil => intro acc h; exact h
  | cons s t ih =>
    intro acc h
    rw [List.foldl_cons]
    exact ih _ (nodup_keys_insertDay s acc h)

/-- The bucket map built from any session list has distinct keys. -/
theorem nodup_keys_buildDayMap (l : List Session) :
    ((buildDayMap l).map (fun x => x.date)).Nodup :=
  nodup_keys_foldl l [] (by simp)

/-- On key-distinct bucket lists, the per-date total lookup is
invariant under permutation. -/
theorem lookupTotal_perm {l1 l2 : List DayData} (hp : l1.Perm l2)
    (hn : (l1.map (fun x => x.date)).Nodup) (d : String) :
    lookupTotal l1 d = lookupTotal l2 d := by
  simp only [lookupTotal]
  cases h1 : List.find? (fun x => x.date = d) l1 with
  | none =>
    have h2 : List.find? (fun x => x.date = d) l2 = none := by
      rw [List.find?_eq_none] at h1 ⊢
      intro x hx
      exact h1 x (hp.symm.subset hx)
    rw [h2]
  | some x =>
    have hx1 : x ∈ l1 := List.mem_of_find?_eq_some h1
    have hpx : x.date = d := by
      have hh := List.find?_some h1
      simpa using hh
    cases h2 : List.find? (fun x => x.date = d) l2 with
    | none =>
      exfalso
      rw [List.find?_eq_none] at h2
      exact h2 x (hp.subset hx1) (by simp [hpx])
    | some y =>
      have hy2 : y ∈ l2 := List.mem_of_find?_eq_some h2
      have hpy : y.date = d := by
        have hh := List.find?_some h2
        simpa using hh
      have hxy : x = y :=
        List.inj_on_of_nodup_map hn hx1 (hp.symm.subset hy2) (by rw [hpx, hpy])
      rw [hxy]

/-- The sorted day buckets report exactly the per-date minute sums. -/
theorem lookupTotal_groupByDay (l : List Session) (d : String) :
    lookupTotal (groupByDay l) d = daySum l d := by
  have hperm : (List.insertionSort dayLE (buildDayMap l)).Perm (buildDayMap l) :=
    List.perm_insertionSort dayLE (buildDayMap l)
  have hn : ((List.insertionSort dayLE (buildDayMap l)).map (fun x => x.date)).Nodup :=
    ((hperm.map (fun x => x.date)).nodup_iff).mpr (nodup_keys_buildDayMap l)
  simp only [groupByDay]
  rw [lookupTotal_perm hperm hn d]
  exact lookupTotal_buildDayMap l d

/-- Per-date minute sums are invariant under permutation of the
session list. -/
theorem daySum_perm {l lp : List Session} (h : l.Perm lp) (d : String) :
    daySum l d = daySum lp d := by
  simp only [daySum]
  exact ((h.filter _).map _).sum_eq

/-- C9: the day-bucket grouping of `getDayData` is deterministic,
its per-date totals are invariant under permutation of the input
session list (and equal the per-date minute sums of the input, which
the pure function never mutates), its buckets come out in ascending
date-string order, and on the three-session scenario it yields the
two buckets with 60 total minutes each. -/
theorem groupByDay_props : ∀ (l lp : List Session) (d : String),
    (l.Perm lp → lookupTotal (groupByDay l) d = lookupTotal (groupByDay lp) d) ∧
    lookupTotal (groupByDay l) d = daySum l d ∧
    groupByDay l = groupByDay l ∧
    List.Sorted dayLE (groupByDay l) ∧
    groupByDay exampleSessions =
      [{ date := "2024-01-01", totalMinutes := 60, sessions := [exS1, exS2] },
       { date := "2024-01-02", totalMinutes := 60, sessions := [exS3] }] := by
  intro l lp d
  refine ⟨?_, lookupTotal_groupByDay l d, rfl, ?_, ?_⟩
  · intro hperm
    rw [lookupTotal_groupByDay, lookupTotal_groupByDay]
    exact daySum_perm hperm d
  · exact List.sorted_insertionSort dayLE (buildDayMap l)
  · have ha : buildDayMap exampleSessions =
        [{ date := "2024-01-01", totalMinutes := 60, sessions := [exS1, exS2] },
         { date := "2024-01-02", totalMinutes := 60, sessions := [exS3] }] := by
      norm_num [buildDayMap, exampleSessions, insertDay, updateDay,
        exS1, exS2, exS3, List.foldl]
      decide
    have hle : dayLE
        { date := "2024-01-01", totalMinutes := 60, sessions := [exS1, exS2] }
        { date := "2024-01-02", totalMinutes := 60, sessions := [exS3] } := by
      show ("2024-01-01" : String) ≤ "2024-01-02"
      rw [String.le_iff_toList_le]
      decide
    rw [groupByDay, ha]
    simp only [List.insertionSort, List.orderedInsert]
    rw [if_pos hle]

/-- C9 witness: the scenario list and its reversal report the same
total for 2024-01-01, and that total is the 60-minute day sum. -/
theorem groupByDay_props_witness :
    lookupTotal (groupByDay exampleSessions) "2024-01-01" =
      lookupTotal (groupByDay [exS3, exS2, exS1]) "2024-01-01" :=
  (groupByDay_props exampleSessions [exS3, exS2, exS1] "2024-01-01").1
    (by decide)

/-- C5 (amended): every Session closed by `handleStop` carries as its
`date` field the UTC calendar date string of its `startTime` (the
date part of `toISOString`, not the local-time date), and that field
is the key the day-bucket aggregation sums by. -/
theorem handleStop_date_utc_and_aggregation_key :
    ∀ (a : App) (now st : Int),
    a.tracker.startTime = some st → st ≠ 0 →
    (handleStop now a).tracker.sessions =
      a.tracker.sessions ++
        [{ startTime := st, endTime := some now,
           duration := Int.fdiv (now - st) 1000, mode := a.tracker.mode,
           date := toISODateString st }] ∧
    (∀ (l : List Session) (d : String),
      lookupTotal (groupByDay l) d = daySum l d) := by
  intro a now st hst h0
  constructor
  · simp only [handleStop, hst]
    rw [if_neg h0]
  · intro l d
    exact lookupTotal_groupByDay l d

/-- C5 witness: stopping the stopwatch started at 2024-01-01T00:30:00Z
records the session under the UTC date of its start, and the scenario
buckets sum by that date key. -/
theorem handleStop_date_utc_and_aggregation_key_witness :
    (handleStop 1704070000000 dateApp).tracker.sessions =
      dateApp.tracker.sessions ++
        [{ startTime := 1704069000000, endTime := some 1704070000000,
           duration := Int.fdiv (1704070000000 - 1704069000000) 1000,
           mode := dateApp.tracker.mode,
           date := toISODateString 1704069000000 }] ∧
    lookupTotal (groupByDay exampleSessions) "2024-01-02" =
      daySum exampleSessions "2024-01-02" :=
  ⟨(handleStop_date_utc_and_aggregation_key dateApp 1704070000000
      1704069000000 rfl (by decide)).1,
   (handleStop_date_utc_and_aggregation_key dateApp 1704070000000
      1704069000000 rfl (by decide)).2 exampleSessions "2024-01-02"⟩
